import Mathlib

/-!
Verification development for the TinyIMGserver resource-allocation core.

The embedding follows the Python source:
  - `app/core/resources.py` : GPU lock set, `acquire_gpu`, `release_gpu`
  - `app/core/stats.py`     : `ServerStats` counters and gauges
  - `app/api/endpoints/generate.py` : request validators and the
    `/generate` orchestrator `generate_image`
  - `app/models/flux_apple.py`, `app/models/sdxl_apple.py`,
    `app/models/mock.py` : seed protocol of the generation collaborators

Machine details that are environmental (wall-clock readings, RNG draws,
whether a model backend import/pipeline succeeds, the opaque image bytes)
are passed in explicitly as parameters, so every definition is executable
and every branch of the source is represented.
-/

set_option autoImplicit false

namespace TinyIMG

/-- The allocator's lock set, `_gpu_locks` in `app/core/resources.py`:
a dict from gpu id to a binary lock, modelled as an association list in
discovery order (Python dicts preserve insertion order).  The `Bool` is
the lock state: `true` = held, `false` = free. -/
abbrev LockSet := List (Nat × Bool)

/-- Lock state of the lock with the given id (first match, as in a dict);
`none` if the id is not a key of the lock set. -/
def heldOf (gid : Nat) : LockSet → Option Bool
  | [] => none
  | (i, h) :: rest => if i = gid then some h else heldOf gid rest

/-- Whether `gid` is a key of the lock set (`gpu_id in _gpu_locks`). -/
def memberGid (gid : Nat) : LockSet → Bool
  | [] => false
  | (i, _) :: rest => if i = gid then true else memberGid gid rest

/-- Set the state of the lock with the given id (first match). -/
def setHeld (gid : Nat) (b : Bool) : LockSet → LockSet
  | [] => []
  | (i, h) :: rest => if i = gid then (i, b) :: rest else (i, h) :: setHeld gid b rest

/-- One non-blocking pass over all locks in discovery order — the inner
`for gpu_id, lock in _gpu_locks.items(): lock.acquire(blocking=False)`
loop of `acquire_gpu`.  Returns the id of the first free lock together
with the updated lock set, or `none` if every lock is held. -/
def acquirePass : LockSet → Option (Nat × LockSet)
  | [] => none
  | (i, true) :: rest => (acquirePass rest).map (fun p => (p.1, (i, true) :: p.2))
  | (i, false) :: rest => some (i, (i, true) :: rest)

/-- `release_gpu` from `app/core/resources.py`:
`if gpu_id in _gpu_locks: _gpu_locks[gpu_id].release()`.
An unrecognised id is a no-op.  Releasing a recognised id whose
`threading.Lock` is not held raises `RuntimeError`, modelled as
`Except.error`. -/
def release_gpu (gid : Nat) (locks : LockSet) : Except Unit LockSet :=
  if memberGid gid locks then
    match heldOf gid locks with
    | some true => Except.ok (setHeld gid false locks)
    | _ => Except.error ()
  else Except.ok locks

/-- The `acquire_gpu` polling loop of `app/core/resources.py`.
`timeout` is the budget in seconds; `e i` is the elapsed wall-clock
reading `time.time() - start` observed at the timeout check of pass `i`
(floats modelled as rationals); `ls i` is the lock-set snapshot seen by
pass `i` (concurrent interference may change it between passes).
`fuel` bounds the number of passes so the definition is total: `none`
means the fuel ran out (the loop is still running), `some (some gid, k)`
means the id `gid` was acquired on pass `k`, and `some (none, k)` means
TIMEOUT was returned after pass `k`.  The timeout test is the source's
strict `time.time() - start > timeout`; between two passes the code
sleeps `0.1` seconds. -/
def acquire_gpu (timeout : ℚ) (e : Nat → ℚ) (ls : Nat → LockSet) :
    Nat → Nat → Option (Option Nat × Nat)
  | 0, _ => none
  | fuel + 1, i =>
    match acquirePass (ls i) with
    | some (gid, _) => some (some gid, i + 1)
    | none =>
      if timeout < e i then some (none, i + 1)
      else acquire_gpu timeout e ls fuel (i + 1)

/-- An atomic step on the shared lock set: one non-blocking acquisition
pass (as performed inside `acquire_gpu`) or one `release_gpu` call.  A
failed pass and a raising release leave the state unchanged. -/
inductive Act where
  | acquire : Act
  | release : Nat → Act
deriving DecidableEq

/-- Effect of one step on the lock set. -/
def applyAct (t : LockSet) : Act → LockSet
  | Act.acquire =>
    match acquirePass t with
    | some (_, t2) => t2
    | none => t
  | Act.release g =>
    match release_gpu g t with
    | Except.ok t2 => t2
    | Except.error _ => t

/-- Effect of a sequence of interleaved steps on the lock set. -/
def applyActs (acts : List Act) (t : LockSet) : LockSet :=
  acts.foldl applyAct t

/-- `ServerStats._stats` from `app/core/stats.py`.  Timestamps are
rationals. -/
structure ServerStats where
  total_requests : Nat
  successful_generations : Nat
  failed_generations : Nat
  queue_length : Nat
  start_time : ℚ
  last_generation : Option ℚ
  active_generations : Nat
deriving DecidableEq, Repr

/-- `ServerStats.__init__`: all counters zeroed, `start_time` stamped. -/
def initStats (t0 : ℚ) : ServerStats :=
  { total_requests := 0, successful_generations := 0, failed_generations := 0
    queue_length := 0, start_time := t0, last_generation := none
    active_generations := 0 }

/-- `ServerStats.increment_request`. -/
def increment_request (s : ServerStats) : ServerStats :=
  { s with total_requests := s.total_requests + 1 }

/-- `ServerStats.increment_success`: bumps the success counter and stamps
`last_generation` with the current time. -/
def increment_success (now : ℚ) (s : ServerStats) : ServerStats :=
  { s with successful_generations := s.successful_generations + 1
           last_generation := some now }

/-- `ServerStats.increment_failure`. -/
def increment_failure (s : ServerStats) : ServerStats :=
  { s with failed_generations := s.failed_generations + 1 }

/-- `ServerStats.set_active_generations`. -/
def set_active_generations (n : Nat) (s : ServerStats) : ServerStats :=
  { s with active_generations := n }

/-- A raw `/generate` request body, before pydantic validation
(`GenerateRequest` fields in `app/api/endpoints/generate.py`; Python
`int` is `Int`, `float` is `ℚ`). -/
structure RawRequest where
  prompt : String
  model : String
  width : Int := 512
  height : Int := 512
  steps : Int := 20
  guidance_scale : ℚ := 7.5
  seed : Option Int := none
deriving DecidableEq, Repr

/-- A validated request as the endpoint body sees it: the `model`
validator has normalised the name to lowercase and the `seed` validator
has ensured non-negativity. -/
structure GenerateRequest where
  prompt : String
  model : String
  width : Int
  height : Int
  steps : Int
  guidance_scale : ℚ
  seed : Option Nat
deriving DecidableEq, Repr

/-- Python's `str.lower()`, character by character. -/
def strLower (s : String) : String := String.mk (s.data.map Char.toLower)

/-- `not str(v).strip()`: the string is empty or entirely whitespace, so
stripping leaves nothing. -/
def strBlank (s : String) : Bool := s.data.all Char.isWhitespace

/-- The `model_must_be_valid` field validator: empty or blank names and
names other than (case-insensitive) `flux` / `sdxl` raise `ValueError`;
a valid name is returned lowercased. -/
def model_must_be_valid (v : String) : Option String :=
  if v = "" ∨ strBlank v then none
  else if strLower v = "flux" ∨ strLower v = "sdxl" then some (strLower v)
  else none

/-- The `prompt_must_not_be_empty` field validator. -/
def prompt_must_not_be_empty (v : String) : Option String :=
  if v = "" ∨ strBlank v then none else some v

/-- All pydantic field validators of `GenerateRequest`; `none` means the
request fails schema validation, which FastAPI turns into an HTTP 422
response before the endpoint body runs. -/
def validateRequest (r : RawRequest) : Option GenerateRequest := do
  let p ← prompt_must_not_be_empty r.prompt
  let m ← model_must_be_valid r.model
  if 64 ≤ r.width ∧ r.width ≤ 2048 then pure () else none
  if 64 ≤ r.height ∧ r.height ≤ 2048 then pure () else none
  if 1 ≤ r.steps ∧ r.steps ≤ 100 then pure () else none
  if 1 ≤ r.guidance_scale ∧ r.guidance_scale ≤ 20 then pure () else none
  let sd ← match r.seed with
    | none => some none
    | some n => if 0 ≤ n then some (some n.toNat) else none
  pure { prompt := p, model := m, width := r.width, height := r.height
         steps := r.steps, guidance_scale := r.guidance_scale, seed := sd }

/-- `random.randint(0, 2**32 - 1)`: the draw lies in `[0, 2^32 - 1]` and
is determined by the RNG state `r`. -/
def randSeed (r : Nat) : Nat := r % 2 ^ 32

/-- Environmental inputs of one `/generate` call: whether each
collaborator succeeds or raises, the opaque image payloads, the RNG
states behind the collaborators' `random.randint` draws, and the clock
readings used for `generation_time` and the success timestamp. -/
structure Env where
  fluxOk : Bool
  sdxlOk : Bool
  mockOk : Bool
  fluxImg : String
  sdxlImg : String
  mockImg : String
  rand : Nat
  mockRand : Nat
  genTime : ℚ
  now : ℚ
deriving DecidableEq, Repr

/-- Seed protocol of `generate_flux_image` (`app/models/flux_apple.py`)
and `generate_sdxl_image` (`app/models/sdxl_apple.py`): an omitted seed
becomes `random.randint(0, 2**32 - 1)`; on success the function returns
the image data together with that seed, and on any pipeline failure or
failing module load it raises (`none`). -/
def generate_flux_image (env : Env) (seed : Option Nat) : Option (String × Nat) :=
  if env.fluxOk then some (env.fluxImg, seed.getD (randSeed env.rand)) else none

/-- `generate_sdxl_image`, same seed protocol as the flux backend. -/
def generate_sdxl_image (env : Env) (seed : Option Nat) : Option (String × Nat) :=
  if env.sdxlOk then some (env.sdxlImg, seed.getD (randSeed env.rand)) else none

/-- `generate_mock_image` (`app/models/mock.py`): same seed protocol —
an explicit seed is used as given, an omitted one is drawn with
`random.randint(0, 2**32 - 1)`; returns the base64 payload and the seed
actually used.  It raises only if image construction itself fails
(`mockOk = false`), which the orchestrator's catch-all handler absorbs. -/
def generate_mock_image (env : Env) (_prompt : String) (seed : Option Nat) :
    Option (String × Nat) :=
  if env.mockOk then some (env.mockImg, seed.getD (randSeed env.mockRand)) else none

/-- The `metadata` object of a successful `/generate` response. -/
structure GenMetadata where
  prompt : String
  model : String
  width : Int
  height : Int
  steps : Int
  guidance_scale : ℚ
  seed : Nat
  generation_time : ℚ
  gpu_id : Nat
deriving DecidableEq, Repr

/-- A successful `/generate` response body. -/
structure GenResult where
  image : String
  metadata : GenMetadata
deriving DecidableEq, Repr

/-- Outcome of a `/generate` call: a 200 result or an `HTTPException`
with its status code and detail. -/
inductive Response where
  | ok : GenResult → Response
  | httpError : Nat → String → Response
deriving DecidableEq, Repr

/-- Whether a response is a 200 success. -/
def isOkResp : Response → Bool
  | Response.ok _ => true
  | Response.httpError _ _ => false

/-- Whether a response is a client error (4xx). -/
def isClientError : Response → Bool
  | Response.ok _ => false
  | Response.httpError c _ => decide (400 ≤ c ∧ c < 500)

/-- The `try`-block body of `generate_image` from after
`set_active_generations(1)` up to (but not including) the `finally`:
model dispatch, mock fallback on a raising backend, success tracking and
the two `except` handlers.  Returns the response together with the stats
as they stand when control reaches the `finally`. -/
def generateBody (req : GenerateRequest) (env : Env) (gpu_id : Nat)
    (stats : ServerStats) : Response × ServerStats :=
  let model_name := strLower req.model
  if model_name = "flux" then
    match generate_flux_image env req.seed with
    | some (img, s) =>
      (Response.ok { image := img
                     metadata := { prompt := req.prompt, model := req.model
                                   width := req.width, height := req.height
                                   steps := req.steps
                                   guidance_scale := req.guidance_scale
                                   seed := s, generation_time := env.genTime
                                   gpu_id := gpu_id } },
       increment_success env.now stats)
    | none =>
      match generate_mock_image env ("[MOCK FLUX] " ++ req.prompt) req.seed with
      | some (img, s) =>
        (Response.ok { image := img
                       metadata := { prompt := req.prompt, model := req.model
                                     width := req.width, height := req.height
                                     steps := req.steps
                                     guidance_scale := req.guidance_scale
                                     seed := s, generation_time := env.genTime
                                     gpu_id := gpu_id } },
         increment_success env.now stats)
      | none =>
        (Response.httpError 500 "Unexpected error: mock generation failed",
         increment_failure stats)
  else if model_name = "sdxl" then
    match generate_sdxl_image env req.seed with
    | some (img, s) =>
      (Response.ok { image := img
                     metadata := { prompt := req.prompt, model := req.model
                                   width := req.width, height := req.height
                                   steps := req.steps
                                   guidance_scale := req.guidance_scale
                                   seed := s, generation_time := env.genTime
                                   gpu_id := gpu_id } },
       increment_success env.now stats)
    | none =>
      match generate_mock_image env ("[MOCK SDXL] " ++ req.prompt) req.seed with
      | some (img, s) =>
        (Response.ok { image := img
                       metadata := { prompt := req.prompt, model := req.model
                                     width := req.width, height := req.height
                                     steps := req.steps
                                     guidance_scale := req.guidance_scale
                                     seed := s, generation_time := env.genTime
                                     gpu_id := gpu_id } },
         increment_success env.now stats)
      | none =>
        (Response.httpError 500 "Unexpected error: mock generation failed",
         increment_failure stats)
  else
    (Response.httpError 400 ("Model " ++ req.model ++ " not supported."),
     increment_failure stats)

/-- The `/generate` orchestrator `generate_image` from
`app/api/endpoints/generate.py`, in its sequential (no concurrent
interference) semantics: `acquire_gpu` returns the first free lock on
its first pass, and times out (`None`) when no lock is free (by
`acquire_gpu_empty_times_out` below, the polling loop then returns
TIMEOUT once the elapsed clock exceeds the budget).  The result is the
response together with the final stats and lock set. -/
def generate_image (req : GenerateRequest) (env : Env) (stats : ServerStats)
    (locks : LockSet) : Response × ServerStats × LockSet :=
  let stats := increment_request stats
  match acquirePass locks with
  | none =>
    (Response.httpError 503 "No GPU available for image generation (timeout).",
     increment_failure stats, locks)
  | some (gpu_id, locks1) =>
    let stats := set_active_generations 1 stats
    let body := generateBody req env gpu_id stats
    let statsF := set_active_generations 0 body.2
    let locksF := match release_gpu gpu_id locks1 with
      | Except.ok l => l
      | Except.error _ => locks1
    (body.1, statsF, locksF)

/-- The full `/generate` request path: FastAPI runs pydantic validation
first and answers 422 without entering the endpoint body (stats and
locks untouched); only a validated request reaches `generate_image`. -/
def handle_generate (raw : RawRequest) (env : Env) (stats : ServerStats)
    (locks : LockSet) : Response × ServerStats × LockSet :=
  match validateRequest raw with
  | none => (Response.httpError 422 "Unprocessable Entity", stats, locks)
  | some req => generate_image req env stats locks

/-! ### Lock-set lemmas -/

lemma heldOf_some_member {gid : Nat} {b : Bool} :
    ∀ {s : LockSet}, heldOf gid s = some b → memberGid gid s = true := by
  intro s
  induction s with
  | nil => intro h; simp [heldOf] at h
  | cons p rest ih =>
    obtain ⟨i, hd⟩ := p
    intro h
    by_cases hig : i = gid
    · simp [memberGid, hig]
    · simp only [heldOf, hig, if_false] at h
      simp [memberGid, hig, ih h]

lemma heldOf_setHeld_ne {g gid : Nat} (b : Bool) (hne : g ≠ gid) :
    ∀ s : LockSet, heldOf gid (setHeld g b s) = heldOf gid s := by
  intro s
  induction s with
  | nil => rfl
  | cons p rest ih =>
    obtain ⟨i, hd⟩ := p
    by_cases hig : i = g
    · subst hig
      simp [setHeld, heldOf, hne]
    · by_cases higid : i = gid
      · simp [setHeld, heldOf, hig, higid, Ne.symm hne]
      · simp [setHeld, heldOf, hig, higid, ih]

lemma heldOf_setHeld_self {gid : Nat} (b : Bool) :
    ∀ {s : LockSet}, memberGid gid s = true → heldOf gid (setHeld gid b s) = some b := by
  intro s
  induction s with
  | nil => intro h; simp [memberGid] at h
  | cons p rest ih =>
    obtain ⟨i, hd⟩ := p
    intro h
    by_cases hig : i = gid
    · subst hig
      simp [setHeld, heldOf]
    · simp only [memberGid, hig, if_false] at h
      simp [setHeld, heldOf, hig, ih h]

lemma acquirePass_heldOf_post {gid : Nat} :
    ∀ {s s2 : LockSet}, acquirePass s = some (gid, s2) → heldOf gid s2 = some true := by
  intro s
  induction s with
  | nil => intro s2 h; simp [acquirePass] at h
  | cons p rest ih =>
    obtain ⟨i, hd⟩ := p
    intro s2 h
    cases hd with
    | false =>
      simp only [acquirePass, Option.some.injEq, Prod.mk.injEq] at h
      obtain ⟨h1, h2⟩ := h
      subst h1; subst h2
      simp [heldOf]
    | true =>
      simp only [acquirePass] at h
      cases hrest : acquirePass rest with
      | none => rw [hrest] at h; simp at h
      | some q =>
        rw [hrest] at h
        simp only [Option.map_some', Option.some.injEq] at h
        obtain ⟨hq, hs2⟩ : q.1 = gid ∧ (i, true) :: q.2 = s2 := by
          constructor
          · exact congrArg Prod.fst h
          · exact congrArg Prod.snd h
        subst hs2
        by_cases hig : i = gid
        · simp [heldOf, hig]
        · have := @ih q.2 (by rw [hrest, ← hq])
          simp [heldOf, hig, this]

lemma acquirePass_member {gid : Nat} :
    ∀ {s s2 : LockSet}, acquirePass s = some (gid, s2) → memberGid gid s = true := by
  intro s
  induction s with
  | nil => intro s2 h; simp [acquirePass] at h
  | cons p rest ih =>
    obtain ⟨i, hd⟩ := p
    intro s2 h
    cases hd with
    | false =>
      simp only [acquirePass, Option.some.injEq, Prod.mk.injEq] at h
      simp [memberGid, h.1]
    | true =>
      simp only [acquirePass] at h
      cases hrest : acquirePass rest with
      | none => rw [hrest] at h; simp at h
      | some q =>
        rw [hrest] at h
        simp only [Option.map_some', Option.some.injEq] at h
        have hq : q.1 = gid := congrArg Prod.fst h
        by_cases hig : i = gid
        · simp [memberGid, hig]
        · have := @ih q.2 (by rw [hrest, ← hq])
          simp [memberGid, hig, this]

lemma acquirePass_heldOf_pre {gid : Nat} :
    ∀ {s s2 : LockSet}, (s.map Prod.fst).Nodup → acquirePass s = some (gid, s2) →
      heldOf gid s = some false := by
  intro s
  induction s with
  | nil => intro s2 _ h; simp [acquirePass] at h
  | cons p rest ih =>
    obtain ⟨i, hd⟩ := p
    intro s2 hnd h
    simp only [List.map_cons, List.nodup_cons] at hnd
    cases hd with
    | false =>
      simp only [acquirePass, Option.some.injEq, Prod.mk.injEq] at h
      rw [← h.1]
      simp [heldOf]
    | true =>
      simp only [acquirePass] at h
      cases hrest : acquirePass rest with
      | none => rw [hrest] at h; simp at h
      | some q =>
        rw [hrest] at h
        simp only [Option.map_some', Option.some.injEq] at h
        have hq : q.1 = gid := congrArg Prod.fst h
        have hmem : memberGid gid rest = true :=
          @acquirePass_member gid rest q.2 (by rw [hrest, ← hq])
        have hig : i ≠ gid := by
          intro hcontra
          subst hcontra
          refine hnd.1 ?_
          clear ih hrest hq h hnd
          induction rest with
          | nil => simp [memberGid] at hmem
          | cons p2 rest2 ih2 =>
            obtain ⟨j, hd2⟩ := p2
            by_cases hji : j = i
            · simp [hji]
            · simp only [memberGid, hji, if_false] at hmem
              simp [List.mem_map]
              right
              have := ih2 hmem
              simpa [List.mem_map] using this
        have := @ih q.2 hnd.2 (by rw [hrest, ← hq])
        simp [heldOf, hig, this]

lemma acquirePass_preserves_held {gid : Nat} :
    ∀ {s s2 : LockSet} {g2 : Nat}, heldOf gid s = some true →
      acquirePass s = some (g2, s2) → heldOf gid s2 = some true := by
  intro s
  induction s with
  | nil => intro s2 g2 hh h; simp [acquirePass] at h
  | cons p rest ih =>
    obtain ⟨i, hd⟩ := p
    intro s2 g2 hh h
    cases hd with
    | false =>
      simp only [acquirePass, Option.some.injEq, Prod.mk.injEq] at h
      rw [← h.2]
      by_cases hig : i = gid
      · simp [heldOf, hig]
      · simp only [heldOf, hig, if_false] at hh
        simp [heldOf, hig, hh]
    | true =>
      simp only [acquirePass] at h
      cases hrest : acquirePass rest with
      | none => rw [hrest] at h; simp at h
      | some q =>
        rw [hrest] at h
        simp only [Option.map_some', Option.some.injEq] at h
        have hs2 : (i, true) :: q.2 = s2 := congrArg Prod.snd h
        subst hs2
        by_cases hig : i = gid
        · simp [heldOf, hig]
        · simp only [heldOf, hig, if_false] at hh
          have := @ih q.2 q.1 hh (by rw [hrest])
          simp [heldOf, hig, this]

lemma release_gpu_held {gid : Nat} {s : LockSet} (h : heldOf gid s = some true) :
    release_gpu gid s = Except.ok (setHeld gid false s) := by
  simp [release_gpu, heldOf_some_member h, h]

lemma release_gpu_unrecognized {gid : Nat} {s : LockSet}
    (h : memberGid gid s = false) : release_gpu gid s = Except.ok s := by
  simp [release_gpu, h]

lemma release_gpu_ok_cases {gid : Nat} {s l : LockSet}
    (h : release_gpu gid s = Except.ok l) : l = s ∨ l = setHeld gid false s := by
  by_cases hm : memberGid gid s
  · cases hh : heldOf gid s with
    | none => simp [release_gpu, hm, hh] at h
    | some b =>
      cases b with
      | false => simp [release_gpu, hm, hh] at h
      | true =>
        right
        simp only [release_gpu, hm, if_true, hh, Except.ok.injEq] at h
        exact h.symm
  · left
    simp only [release_gpu, hm, Bool.false_eq_true, if_false, Except.ok.injEq] at h
    exact h.symm

lemma applyAct_preserves_held {gid : Nat} {t : LockSet} {a : Act}
    (hh : heldOf gid t = some true) (hne : a ≠ Act.release gid) :
    heldOf gid (applyAct t a) = some true := by
  cases a with
  | acquire =>
    simp only [applyAct]
    cases hp : acquirePass t with
    | none => exact hh
    | some q => exact acquirePass_preserves_held hh (by rw [hp])
  | release g =>
    have hg : g ≠ gid := by
      intro hcontra; exact hne (by rw [hcontra])
    simp only [applyAct]
    cases hr : release_gpu g t with
    | error e => exact hh
    | ok l =>
      rcases release_gpu_ok_cases hr with h | h
      · rw [h]; exact hh
      · rw [h, heldOf_setHeld_ne false hg]; exact hh

lemma applyActs_preserves_held {gid : Nat} :
    ∀ {acts : List Act} {t : LockSet}, heldOf gid t = some true →
      Act.release gid ∉ acts → heldOf gid (applyActs acts t) = some true := by
  intro acts
  induction acts with
  | nil => intro t hh _; exact hh
  | cons a rest ih =>
    intro t hh hmem
    simp only [List.mem_cons, not_or] at hmem
    have step : heldOf gid (applyAct t a) = some true :=
      applyAct_preserves_held hh (fun hc => hmem.1 hc.symm)
    have : applyActs (a :: rest) t = applyActs rest (applyAct t a) := rfl
    rw [this]
    exact ih step hmem.2

/-- The id returned by one acquisition pass is the id of the first free
lock in discovery order. -/
lemma acquirePass_first_free :
    ∀ s : LockSet, (acquirePass s).map Prod.fst =
      (s.find? (fun p => !p.2)).map Prod.fst := by
  intro s
  induction s with
  | nil => rfl
  | cons p rest ih =>
    obtain ⟨i, hd⟩ := p
    cases hd with
    | false => simp [acquirePass, List.find?]
    | true =>
      simp only [acquirePass, List.find?, Bool.not_true]
      rw [← ih]
      cases acquirePass rest with
      | none => rfl
      | some q => rfl

/-- If every pass fails, the polling loop of `acquire_gpu` returns
TIMEOUT as soon as an elapsed reading exceeds the budget. -/
lemma acquire_gpu_times_out {timeout : ℚ} {e : Nat → ℚ} {ls : Nat → LockSet}
    (hpass : ∀ i, acquirePass (ls i) = none) :
    ∀ fuel i, timeout < e (i + fuel) →
      ∃ k, acquire_gpu timeout e ls (fuel + 1) i = some (none, k) := by
  intro fuel
  induction fuel with
  | zero =>
    intro i hlt
    refine ⟨i + 1, ?_⟩
    simp only [acquire_gpu, hpass i]
    rw [if_pos (by simpa using hlt)]
  | succ fuel ih =>
    intro i hlt
    by_cases hi : timeout < e i
    · exact ⟨i + 1, by simp only [acquire_gpu, hpass i]; rw [if_pos hi]⟩
    · obtain ⟨k, hk⟩ := ih (i + 1) (by rw [show i + 1 + fuel = i + (fuel + 1) by omega]; exact hlt)
      refine ⟨k, ?_⟩
      simp only [acquire_gpu, hpass i]
      rw [if_neg hi]
      exact hk

/-- Successive elapsed readings grow by at least the `0.1` second sleep,
so the `n`-th reading is at least `n / 10`. -/
lemma clock_growth {e : Nat → ℚ} (h0 : 0 ≤ e 0)
    (hstep : ∀ n, e n + 1 / 10 ≤ e (n + 1)) : ∀ n : Nat, (n : ℚ) / 10 ≤ e n := by
  intro n
  induction n with
  | zero => simpa using h0
  | succ n ih =>
    have := hstep n
    push_cast
    linarith

/-- A request whose model name fails `model_must_be_valid` fails schema
validation as a whole. -/
lemma validateRequest_model_none {raw : RawRequest}
    (hm : model_must_be_valid raw.model = none) : validateRequest raw = none := by
  unfold validateRequest
  cases hp : prompt_must_not_be_empty raw.prompt with
  | none => rfl
  | some p => simp [Option.bind, hp, hm]

/-- Every branch of the `try`-block body ends by recording exactly one
outcome: a success or a failure, never both, never neither. -/
lemma generateBody_stats (req : GenerateRequest) (env : Env) (gid : Nat)
    (st : ServerStats) :
    (generateBody req env gid st).2 = increment_success env.now st ∨
    (generateBody req env gid st).2 = increment_failure st := by
  unfold generateBody generate_flux_image generate_sdxl_image generate_mock_image
  by_cases h1 : strLower req.model = "flux" <;> by_cases h2 : strLower req.model = "sdxl" <;>
    simp only [h1, h2, if_true, if_false] <;>
    first
      | (split_ifs <;> simp)
      | simp

/-- On every 200 path the seed placed in the response metadata is the
request's explicit seed if one was given, and a collaborator `randint`
draw otherwise. -/
lemma generateBody_ok_seed {req : GenerateRequest} {env : Env} {gid : Nat}
    {st : ServerStats} {r : GenResult}
    (h : (generateBody req env gid st).1 = Response.ok r) :
    r.metadata.seed = req.seed.getD (randSeed env.rand) ∨
    r.metadata.seed = req.seed.getD (randSeed env.mockRand) := by
  unfold generateBody generate_flux_image generate_sdxl_image generate_mock_image at h
  by_cases h1 : strLower req.model = "flux" <;> by_cases h2 : strLower req.model = "sdxl" <;>
    simp only [h1, h2, if_true, if_false] at h <;> (try split_ifs at h) <;>
    first
      | (simp only [Response.ok.injEq] at h; left; subst h; rfl)
      | (simp only [Response.ok.injEq] at h; right; subst h; rfl)
      | simp at h

/-! ### Concrete inputs used by witnesses and counterexamples -/

/-- The spec's scenario request (with an integral guidance value). -/
def req0 : GenerateRequest :=
  { prompt := "A basket of kittens", model := "flux", width := 512, height := 512
    steps := 20, guidance_scale := 8, seed := some 42 }

/-- The scenario request with the seed omitted. -/
def reqNoSeed : GenerateRequest :=
  { req0 with seed := none }

/-- An environment in which every collaborator succeeds. -/
def env0 : Env :=
  { fluxOk := true, sdxlOk := true, mockOk := true, fluxImg := "fluximg"
    sdxlImg := "sdxlimg", mockImg := "mockimg", rand := 7, mockRand := 9
    genTime := 2, now := 100 }

/-- An environment in which the flux backend raises and the mock
fallback succeeds. -/
def envFluxFail : Env :=
  { env0 with fluxOk := false }

/-- A raw request whose model name is not a supported one. -/
def rawUnknown : RawRequest :=
  { prompt := "A basket of kittens", model := "unknown", width := 512
    height := 512, steps := 20, guidance_scale := 8, seed := some 42 }

/-! ### Claims -/

/-- Claim C1: for every call of the `/generate` orchestrator in which
`acquire_gpu` returns a unit id, the exit path — a 200 result, an
`HTTPException` (including the unsupported-model 400 branch), or any
other exception — clears the active-generation gauge and releases
exactly the acquired id, so that unit's lock is free again when the
call completes (and no other lock is touched by the release). -/
theorem generate_image_releases_gpu (req : GenerateRequest) (env : Env)
    (st : ServerStats) (locks : LockSet) (gid : Nat) (l1 : LockSet)
    (hacq : acquirePass locks = some (gid, l1)) :
    (generate_image req env st locks).2.1.active_generations = 0
    ∧ heldOf gid (generate_image req env st locks).2.2 = some false
    ∧ ∀ g, g ≠ gid →
        heldOf g (generate_image req env st locks).2.2 = heldOf g l1 := by
  have hpost := acquirePass_heldOf_post hacq
  have hrel := release_gpu_held hpost
  have hmem := heldOf_some_member hpost
  have hout : generate_image req env st locks =
      ((generateBody req env gid (set_active_generations 1 (increment_request st))).1,
       set_active_generations 0
         (generateBody req env gid (set_active_generations 1 (increment_request st))).2,
       setHeld gid false l1) := by
    unfold generate_image
    rw [hacq]
    dsimp only
    rw [hrel]
  rw [hout]
  refine ⟨rfl, heldOf_setHeld_self false hmem, fun g hg => ?_⟩
  exact heldOf_setHeld_ne false (fun hc => hg hc.symm) l1

/-- Witness for C1 at a two-unit lock set whose first unit is free. -/
theorem generate_image_releases_gpu_witness :
    (generate_image req0 env0 (initStats 0) [(0, false), (1, true)]).2.1.active_generations = 0
    ∧ heldOf 0 (generate_image req0 env0 (initStats 0) [(0, false), (1, true)]).2.2 = some false
    ∧ heldOf 1 (generate_image req0 env0 (initStats 0) [(0, false), (1, true)]).2.2 =
        heldOf 1 [(0, true), (1, true)] :=
  ⟨(generate_image_releases_gpu req0 env0 (initStats 0) [(0, false), (1, true)]
      0 [(0, true), (1, true)] (by decide)).1,
   (generate_image_releases_gpu req0 env0 (initStats 0) [(0, false), (1, true)]
      0 [(0, true), (1, true)] (by decide)).2.1,
   (generate_image_releases_gpu req0 env0 (initStats 0) [(0, false), (1, true)]
      0 [(0, true), (1, true)] (by decide)).2.2 1 (by decide)⟩

/-- Claim C4: every call of the `/generate` orchestrator increments
`total_requests` exactly once, and exactly one of
`successful_generations` / `failed_generations` exactly once — never
both and never neither — on every outcome branch (success, allocation
timeout, unsupported model, collaborator error with successful mock
fallback, unexpected internal error). -/
theorem generate_image_counters (req : GenerateRequest) (env : Env)
    (st : ServerStats) (locks : LockSet) :
    (generate_image req env st locks).2.1.total_requests = st.total_requests + 1
    ∧ (((generate_image req env st locks).2.1.successful_generations =
          st.successful_generations + 1
        ∧ (generate_image req env st locks).2.1.failed_generations =
          st.failed_generations)
       ∨ ((generate_image req env st locks).2.1.successful_generations =
          st.successful_generations
        ∧ (generate_image req env st locks).2.1.failed_generations =
          st.failed_generations + 1)) := by
  unfold generate_image
  cases hacq : acquirePass locks with
  | none => simp [increment_request, increment_failure]
  | some p =>
    obtain ⟨gid, l1⟩ := p
    dsimp only
    rcases generateBody_stats req env gid
        (set_active_generations 1 (increment_request st)) with h | h <;>
      (rw [h]; simp [increment_success, increment_failure, set_active_generations,
        increment_request])

/-- Claim C5: when `acquire_gpu` times out (returns `None`), the
orchestrator records exactly one failure, answers 503, leaves the
active-generation gauge untouched and performs no release — the lock
set is unchanged. -/
theorem generate_image_timeout_503 (req : GenerateRequest) (env : Env)
    (st : ServerStats) (locks : LockSet) (hacq : acquirePass locks = none) :
    (generate_image req env st locks).1 =
      Response.httpError 503 "No GPU available for image generation (timeout)."
    ∧ (generate_image req env st locks).2.1.failed_generations =
        st.failed_generations + 1
    ∧ (generate_image req env st locks).2.1.successful_generations =
        st.successful_generations
    ∧ (generate_image req env st locks).2.1.total_requests = st.total_requests + 1
    ∧ (generate_image req env st locks).2.1.active_generations =
        st.active_generations
    ∧ (generate_image req env st locks).2.2 = locks := by
  unfold generate_image
  rw [hacq]
  simp [increment_request, increment_failure]

/-- Witness for C5: a single-unit lock set whose unit is already held. -/
theorem generate_image_timeout_503_witness :
    (generate_image req0 env0 (initStats 0) [(0, true)]).1 =
      Response.httpError 503 "No GPU available for image generation (timeout)."
    ∧ (generate_image req0 env0 (initStats 0) [(0, true)]).2.1.failed_generations =
        (initStats 0).failed_generations + 1
    ∧ (generate_image req0 env0 (initStats 0) [(0, true)]).2.1.successful_generations =
        (initStats 0).successful_generations
    ∧ (generate_image req0 env0 (initStats 0) [(0, true)]).2.1.total_requests =
        (initStats 0).total_requests + 1
    ∧ (generate_image req0 env0 (initStats 0) [(0, true)]).2.1.active_generations =
        (initStats 0).active_generations
    ∧ (generate_image req0 env0 (initStats 0) [(0, true)]).2.2 = [(0, true)] :=
  generate_image_timeout_503 req0 env0 (initStats 0) [(0, true)] (by decide)

/-- An environment in which both the flux backend and the mock fallback
raise. -/
def envBothFail : Env :=
  { env0 with fluxOk := false, mockOk := false }

/-- When the selected model backend raises, the `try`-block body falls
back to the mock generator: a success is recorded if the mock returns,
and only a mock failure reaches the catch-all 500 handler. -/
lemma generateBody_backend_fail (req : GenerateRequest) (env : Env) (gid : Nat)
    (st : ServerStats)
    (hfail : (strLower req.model = "flux" ∧ env.fluxOk = false)
      ∨ (strLower req.model = "sdxl" ∧ env.sdxlOk = false)) :
    (env.mockOk = true →
       isOkResp (generateBody req env gid st).1 = true
       ∧ (generateBody req env gid st).2 = increment_success env.now st)
    ∧ (env.mockOk = false →
       (generateBody req env gid st).1 =
         Response.httpError 500 "Unexpected error: mock generation failed"
       ∧ (generateBody req env gid st).2 = increment_failure st) := by
  constructor <;> intro hmk <;>
    rcases hfail with ⟨hm, hb⟩ | ⟨hm, hb⟩ <;>
      simp [generateBody, hm, hb, hmk, generate_flux_image, generate_sdxl_image,
        generate_mock_image, isOkResp]

/-- Counterexample to claim C2 as stated: with the flux backend raising
(`envFluxFail`) the orchestrator returns a 200 mock payload and
increments `successful_generations`, not `failed_generations`. -/
theorem mock_fallback_masks_failure :
    isOkResp (generate_image req0 envFluxFail (initStats 0) [(0, false)]).1 = true
    ∧ (generate_image req0 envFluxFail (initStats 0) [(0, false)]).2.1.successful_generations = 1
    ∧ (generate_image req0 envFluxFail (initStats 0) [(0, false)]).2.1.failed_generations = 0 := by
  decide

/-- Claim C2 (amended): when the selected model backend raises, the
orchestrator silently falls back to the in-process mock generator — it
records a success and returns the mock image as a 200 result; a failure
is recorded (with a 500 response) only when the mock fallback itself
also raises. -/
theorem generate_image_backend_fail (req : GenerateRequest) (env : Env)
    (st : ServerStats) (locks : LockSet) (gid : Nat) (l1 : LockSet)
    (hacq : acquirePass locks = some (gid, l1))
    (hfail : (strLower req.model = "flux" ∧ env.fluxOk = false)
      ∨ (strLower req.model = "sdxl" ∧ env.sdxlOk = false)) :
    (env.mockOk = true →
       isOkResp (generate_image req env st locks).1 = true
       ∧ (generate_image req env st locks).2.1.successful_generations =
           st.successful_generations + 1
       ∧ (generate_image req env st locks).2.1.failed_generations =
           st.failed_generations)
    ∧ (env.mockOk = false →
       (generate_image req env st locks).1 =
         Response.httpError 500 "Unexpected error: mock generation failed"
       ∧ (generate_image req env st locks).2.1.failed_generations =
           st.failed_generations + 1
       ∧ (generate_image req env st locks).2.1.successful_generations =
           st.successful_generations) := by
  have hb := generateBody_backend_fail req env gid
    (set_active_generations 1 (increment_request st)) hfail
  unfold generate_image
  rw [hacq]
  dsimp only
  constructor <;> intro hmk
  · obtain ⟨h1, h2⟩ := hb.1 hmk
    refine ⟨h1, ?_, ?_⟩ <;> rw [h2] <;>
      simp [increment_success, set_active_generations, increment_request]
  · obtain ⟨h1, h2⟩ := hb.2 hmk
    refine ⟨h1, ?_, ?_⟩ <;> rw [h2] <;>
      simp [increment_failure, set_active_generations, increment_request]

/-- Witness for the amended C2, exercising both the successful-mock and
failing-mock sides at concrete inputs. -/
theorem generate_image_backend_fail_witness :
    (isOkResp (generate_image req0 envFluxFail (initStats 0) [(0, false)]).1 = true
     ∧ (generate_image req0 envFluxFail (initStats 0) [(0, false)]).2.1.successful_generations =
         (initStats 0).successful_generations + 1
     ∧ (generate_image req0 envFluxFail (initStats 0) [(0, false)]).2.1.failed_generations =
         (initStats 0).failed_generations)
    ∧ ((generate_image req0 envBothFail (initStats 0) [(0, false)]).1 =
         Response.httpError 500 "Unexpected error: mock generation failed"
       ∧ (generate_image req0 envBothFail (initStats 0) [(0, false)]).2.1.failed_generations =
           (initStats 0).failed_generations + 1
       ∧ (generate_image req0 envBothFail (initStats 0) [(0, false)]).2.1.successful_generations =
           (initStats 0).successful_generations) :=
  ⟨(generate_image_backend_fail req0 envFluxFail (initStats 0) [(0, false)] 0
      [(0, true)] (by decide) (Or.inl (by decide))).1 (by decide),
   (generate_image_backend_fail req0 envBothFail (initStats 0) [(0, false)] 0
      [(0, true)] (by decide) (Or.inl (by decide))).2 (by decide)⟩

/-- Counterexample to claim C3 as stated: a request with model
`unknown` is rejected by schema validation with a 422 before the
endpoint body runs, so `failed_generations` does NOT increment (and no
other counter changes). -/
theorem unsupported_model_no_failure_count :
    (handle_generate rawUnknown env0 (initStats 0) [(0, false)]).1 =
      Response.httpError 422 "Unprocessable Entity"
    ∧ (handle_generate rawUnknown env0 (initStats 0) [(0, false)]).2.1.failed_generations = 0
    ∧ (handle_generate rawUnknown env0 (initStats 0) [(0, false)]).2.1.total_requests = 0
    ∧ (handle_generate rawUnknown env0 (initStats 0) [(0, false)]).2.2 = [(0, false)] := by
  decide

/-- Claim C3 (amended): a request whose model name is not supported is
rejected during schema validation, before the endpoint body: no
allocation is attempted, every lock and every stats counter (including
`failed_generations`) is unchanged, and the caller receives a 422
client-error outcome. -/
theorem unsupported_model_rejected_at_validation (raw : RawRequest) (env : Env)
    (st : ServerStats) (locks : LockSet)
    (hm : model_must_be_valid raw.model = none) :
    handle_generate raw env st locks =
      (Response.httpError 422 "Unprocessable Entity", st, locks)
    ∧ isClientError (handle_generate raw env st locks).1 = true := by
  have hv := validateRequest_model_none hm
  have h : handle_generate raw env st locks =
      (Response.httpError 422 "Unprocessable Entity", st, locks) := by
    unfold handle_generate
    rw [hv]
  exact ⟨h, by rw [h]; rfl⟩

/-- Witness for the amended C3 at the `unknown`-model request. -/
theorem unsupported_model_rejected_at_validation_witness :
    handle_generate rawUnknown env0 (initStats 0) [(0, false)] =
      (Response.httpError 422 "Unprocessable Entity", initStats 0, [(0, false)])
    ∧ isClientError (handle_generate rawUnknown env0 (initStats 0) [(0, false)]).1 = true :=
  unsupported_model_rejected_at_validation rawUnknown env0 (initStats 0)
    [(0, false)] (by decide)

/-- Claim C6: a successful acquisition pass returns the id of a lock
that was free before the pass and held after it — never an already-held
lock — and that lock stays held across any interleaved sequence of
acquisition passes and releases that contains no `release_gpu` of that
id.  (`hnd` is the dict property of `_gpu_locks`: one lock per id.) -/
theorem gpu_lock_mutual_exclusion (s s2 : LockSet) (gid : Nat)
    (hnd : (s.map Prod.fst).Nodup) (hacq : acquirePass s = some (gid, s2)) :
    heldOf gid s = some false
    ∧ heldOf gid s2 = some true
    ∧ ∀ acts : List Act, Act.release gid ∉ acts →
        heldOf gid (applyActs acts s2) = some true :=
  ⟨acquirePass_heldOf_pre hnd hacq, acquirePass_heldOf_post hacq,
   fun _ h => applyActs_preserves_held (acquirePass_heldOf_post hacq) h⟩

/-- Witness for C6: with unit 0 held, a pass acquires unit 1, which
stays held across a further pass and a release of unit 0. -/
theorem gpu_lock_mutual_exclusion_witness :
    heldOf 1 [(0, true), (1, false)] = some false
    ∧ heldOf 1 [(0, true), (1, true)] = some true
    ∧ heldOf 1 (applyActs [Act.acquire, Act.release 0, Act.acquire]
        [(0, true), (1, true)]) = some true :=
  ⟨(gpu_lock_mutual_exclusion [(0, true), (1, false)] [(0, true), (1, true)] 1
      (by decide) (by decide)).1,
   (gpu_lock_mutual_exclusion [(0, true), (1, false)] [(0, true), (1, true)] 1
      (by decide) (by decide)).2.1,
   (gpu_lock_mutual_exclusion [(0, true), (1, false)] [(0, true), (1, true)] 1
      (by decide) (by decide)).2.2
     [Act.acquire, Act.release 0, Act.acquire] (by decide)⟩

/-- Counterexample to claim C7 as stated: with `timeout = 0`, a
non-empty all-held lock set and a first elapsed reading of exactly `0`
(possible, since the source compares with strict `>`), the loop does
NOT return after a single pass: it sleeps and performs a second pass
before returning TIMEOUT (pass counter 2). -/
theorem acquire_gpu_zero_timeout_two_passes :
    acquire_gpu 0 (fun n => (n : ℚ)) (fun _ => [(0, true)]) 5 0 = some (none, 2) := by
  decide

/-- Claim C7 (amended): for `timeout ≤ 0`, provided the first elapsed
reading strictly exceeds the timeout (always true for `timeout < 0`;
for `timeout = 0` it requires a positive reading), `acquire_gpu`
performs exactly one full non-blocking pass: it returns the id of the
first free lock in discovery order if one exists and TIMEOUT otherwise,
with no further pass and no sleep. -/
theorem acquire_gpu_nonpos_single_pass (timeout : ℚ) (e : Nat → ℚ)
    (ls : Nat → LockSet) (fuel : Nat) (_hto : timeout ≤ 0)
    (h0 : timeout < e 0) :
    acquire_gpu timeout e ls (fuel + 1) 0 =
      some ((acquirePass (ls 0)).map Prod.fst, 1)
    ∧ (acquirePass (ls 0)).map Prod.fst =
        ((ls 0).find? (fun p => !p.2)).map Prod.fst := by
  refine ⟨?_, acquirePass_first_free (ls 0)⟩
  cases hp : acquirePass (ls 0) with
  | none =>
    simp only [acquire_gpu, hp, Option.map_none']
    rw [if_pos h0]
  | some q =>
    obtain ⟨g, s2⟩ := q
    simp [acquire_gpu, hp]

/-- Witness for the amended C7 at `timeout = -1` with a free unit. -/
theorem acquire_gpu_nonpos_single_pass_witness :
    acquire_gpu (-1) (fun n => (n : ℚ)) (fun _ => [(5, false)]) 1 0 =
      some ((acquirePass [(5, false)]).map Prod.fst, 1)
    ∧ (acquirePass [(5, false)]).map Prod.fst =
        (([(5, false)] : LockSet).find? (fun p => !p.2)).map Prod.fst :=
  acquire_gpu_nonpos_single_pass (-1) (fun n => (n : ℚ))
    (fun _ => [(5, false)]) 0 (by norm_num) (by norm_num)

/-- Claim C8: for every finite timeout, `acquire_gpu` on an empty lock
set terminates with TIMEOUT (`None`): under the source's clock
behaviour (elapsed readings start non-negative and grow by at least the
`0.1` second sleep each pass) some finite number of passes suffices,
and the loop never raises. -/
theorem acquire_gpu_empty_times_out (timeout : ℚ) (e : Nat → ℚ)
    (h0 : 0 ≤ e 0) (hstep : ∀ n, e n + 1 / 10 ≤ e (n + 1)) :
    ∃ fuel k, acquire_gpu timeout e (fun _ => []) fuel 0 = some (none, k) := by
  obtain ⟨n, hn⟩ := exists_nat_gt (timeout * 10)
  have hgrow := clock_growth h0 hstep n
  have hlt : timeout < e (0 + n) := by
    rw [Nat.zero_add]
    linarith
  obtain ⟨k, hk⟩ := @acquire_gpu_times_out timeout e (fun _ => []) (fun _ => rfl) n 0 hlt
  exact ⟨n + 1, k, hk⟩

/-- Witness for C8 at the default 60-second timeout and a clock that
advances one second per pass. -/
theorem acquire_gpu_empty_times_out_witness :
    ∃ fuel k, acquire_gpu 60 (fun n => (n : ℚ)) (fun _ => []) fuel 0 =
      some (none, k) :=
  acquire_gpu_empty_times_out 60 (fun n => (n : ℚ)) (by norm_num)
    (fun n => by push_cast; linarith)

/-- Claim C9: `release_gpu` on an unrecognised id is a no-op that
raises nothing and changes no lock; on a recognised held id it frees
exactly that lock; and it raises exactly when the id is recognised and
its lock is not held. -/
theorem release_gpu_spec (gid : Nat) (locks : LockSet) :
    (memberGid gid locks = false → release_gpu gid locks = Except.ok locks)
    ∧ (heldOf gid locks = some true →
        release_gpu gid locks = Except.ok (setHeld gid false locks)
        ∧ heldOf gid (setHeld gid false locks) = some false
        ∧ ∀ g, g ≠ gid →
            heldOf g (setHeld gid false locks) = heldOf g locks)
    ∧ (release_gpu gid locks = Except.error () ↔
        memberGid gid locks = true ∧ heldOf gid locks ≠ some true) := by
  refine ⟨release_gpu_unrecognized, ?_, ?_⟩
  · intro hh
    refine ⟨release_gpu_held hh, heldOf_setHeld_self false (heldOf_some_member hh),
      fun g hg => heldOf_setHeld_ne false (fun hc => hg hc.symm) locks⟩
  · constructor
    · intro herr
      by_cases hm : memberGid gid locks
      · refine ⟨hm, fun hh => ?_⟩
        rw [release_gpu_held hh] at herr
        cases herr
      · rw [release_gpu_unrecognized (by simpa using hm)] at herr
        cases herr
    · rintro ⟨hm, hh⟩
      unfold release_gpu
      rw [if_pos hm]
      cases hv : heldOf gid locks with
      | none => rfl
      | some b =>
        cases b with
        | false => rfl
        | true => exact absurd hv hh

/-- Witness for C9: unrecognised id no-op, held id freed, free id
raising, each at concrete lock sets. -/
theorem release_gpu_spec_witness :
    release_gpu 5 [(0, true)] = Except.ok [(0, true)]
    ∧ release_gpu 0 [(0, true)] = Except.ok (setHeld 0 false [(0, true)])
    ∧ release_gpu 0 [(0, false)] = Except.error () :=
  ⟨(release_gpu_spec 5 [(0, true)]).1 (by decide),
   ((release_gpu_spec 0 [(0, true)]).2.1 (by decide)).1,
   (release_gpu_spec 0 [(0, false)]).2.2.mpr (by decide)⟩

/-- Claim C10: on every 200 response, an explicit request seed is
echoed unchanged in the metadata (it is never overridden), and an
omitted seed is replaced in the metadata by a collaborator `randint`
draw — a non-negative integer below `2^32` chosen by the backend or the
mock, not by the orchestrator. -/
theorem generate_image_seed_protocol (req : GenerateRequest) (env : Env)
    (st : ServerStats) (locks : LockSet) (r : GenResult)
    (hok : (generate_image req env st locks).1 = Response.ok r) :
    (∀ v, req.seed = some v → r.metadata.seed = v)
    ∧ (req.seed = none →
        (r.metadata.seed = randSeed env.rand ∨
         r.metadata.seed = randSeed env.mockRand)
        ∧ r.metadata.seed < 2 ^ 32) := by
  unfold generate_image at hok
  cases hacq : acquirePass locks with
  | none => rw [hacq] at hok; simp at hok
  | some p =>
    obtain ⟨gid, l1⟩ := p
    rw [hacq] at hok
    dsimp only at hok
    have hseed := generateBody_ok_seed hok
    constructor
    · intro v hv
      rw [hv] at hseed
      rcases hseed with h | h <;> rw [h] <;> rfl
    · intro hv
      rw [hv] at hseed
      simp only [Option.getD_none] at hseed
      refine ⟨hseed, ?_⟩
      rcases hseed with h | h <;> rw [h] <;>
        exact Nat.mod_lt _ (by norm_num)

/-- The 200 result of the seed-42 scenario request. -/
def resSeed42 : GenResult :=
  { image := "fluximg"
    metadata := { prompt := "A basket of kittens", model := "flux", width := 512
                  height := 512, steps := 20, guidance_scale := 8, seed := 42
                  generation_time := 2, gpu_id := 0 } }

/-- The 200 result of the scenario request with the seed omitted. -/
def resNoSeed : GenResult :=
  { resSeed42 with metadata := { resSeed42.metadata with seed := 7 } }

/-- Witness for C10: seed 42 echoed exactly; an omitted seed becomes
the collaborator draw, in range. -/
theorem generate_image_seed_protocol_witness :
    resSeed42.metadata.seed = 42
    ∧ ((resNoSeed.metadata.seed = randSeed env0.rand ∨
        resNoSeed.metadata.seed = randSeed env0.mockRand)
       ∧ resNoSeed.metadata.seed < 2 ^ 32) :=
  ⟨(generate_image_seed_protocol req0 env0 (initStats 0) [(0, false)] resSeed42
      (by decide)).1 42 rfl,
   (generate_image_seed_protocol reqNoSeed env0 (initStats 0) [(0, false)]
      resNoSeed (by decide)).2 rfl⟩

end TinyIMG
